import Mathlib

/-!
Verification of the rring wrapper around an asynchronous I/O submission /
completion ring (src/lib.rs, src/sqe.rs, src/cqe.rs).

The core of the library is the ownership-transfer protocol: a `UserData`
request context is boxed and its raw pointer is attached to a submission
slot as the opaque kernel tag (`Sqe::set_user_data`), and on completion
`Cqe::get_data` reads the tag back and, depending on the sign of the raw
result code, either rebuilds the owned box (releasing the raw storage from
the kernel-visible heap) or reports a structured `OperationError`.

We embed the boxed-pointer discipline as an explicit heap: addresses are
natural numbers, `0` is the null pointer, `Box::into_raw` is allocation of
a fresh nonzero address, and `Box::from_raw` removes the address from the
heap (the storage is afterwards owned by the caller and no longer reachable
through the tag).  Dereferencing an address the heap no longer maps is
undefined behaviour in the source; operations that would do so are modelled
as returning `none`.
-/

/-- The closed set of operation kinds (`Operation` in src/lib.rs). -/
inductive Operation : Type
  | Read
  | Write
  | Readv
  | Writev
  | Fsync
  | Close
  | Openat
  | Send
  | Recv
  | Accept
deriving DecidableEq, Repr

/-- 128-bit caller-assigned correlation value (`Identifier(pub u128)` in
src/lib.rs).  The code never computes with its bits, so we carry the value
as a natural number. -/
structure Identifier : Type where
  val : Nat
deriving DecidableEq, Repr

/-- The request context (`UserData<T>` in src/lib.rs): operation kind,
caller identifier, source descriptor (`RawFd`, an `i32`), and optional
exclusively-owned payload (`Option<Box<T>>`, carried here as `Option T`). -/
structure UserData (T : Type) : Type where
  op : Operation
  id : Identifier
  srcfd : Int
  data : Option T
deriving DecidableEq

/-- `UserData::new`: context with no payload. -/
def UserData.new (T : Type) (op : Operation) (id : Identifier) (srcfd : Int) :
    UserData T :=
  ⟨op, id, srcfd, none⟩

/-- `UserData::with_data`: context carrying a payload. -/
def UserData.with_data {T : Type} (op : Operation) (id : Identifier)
    (srcfd : Int) (data : T) : UserData T :=
  ⟨op, id, srcfd, some data⟩

/-- The kernel-visible heap of boxed request contexts.  `mem` maps a raw
address to the context stored there (`none` = not allocated / already
freed); `next` bounds the allocated addresses.  Address `0` is the null
pointer and is never allocated (every allocation returns `next + 1`). -/
structure Heap (T : Type) : Type where
  mem : Nat → Option (UserData T)
  next : Nat

/-- The empty heap: nothing allocated. -/
def Heap.empty (T : Type) : Heap T :=
  ⟨fun _ => none, 0⟩

/-- `Box::into_raw (Box::new u)`: allocate a fresh nonzero address holding
`u` and return it together with the extended heap. -/
def Heap.alloc {T : Type} (h : Heap T) (u : UserData T) : Nat × Heap T :=
  (h.next + 1, ⟨fun q => if q = h.next + 1 then some u else h.mem q, h.next + 1⟩)

/-- `Box::from_raw p` (ownership reclaimed): the storage at `p` leaves the
kernel-visible heap; it is afterwards owned by the caller and the tag `p`
dangles. -/
def Heap.free {T : Type} (h : Heap T) (p : Nat) : Heap T :=
  ⟨fun q => if q = p then none else h.mem q, h.next⟩

/-- A submission-queue entry as far as the protocol core is concerned: the
opaque user-data tag attached to it (`io_uring_sqe.user_data`; `0` = no tag
attached). -/
structure Sqe : Type where
  user_data : Nat
deriving DecidableEq, Repr

/-- A completion-queue entry (`io_uring_cqe`): the raw signed result code
`res` and the opaque tag copied back unchanged from the matching
submission. -/
structure Cqe : Type where
  res : Int
  user_data : Nat
deriving DecidableEq, Repr

/-- `Sqe::set_user_data` (src/sqe.rs lines 19-24): box the context
(`Box::into_raw(Box::new(user_data))`) and attach the raw pointer to the
slot via `io_uring_sqe_set_data`.  Returns the extended heap and the
updated slot. -/
def Sqe.set_user_data {T : Type} (h : Heap T) (s : Sqe) (u : UserData T) :
    Heap T × Sqe :=
  let ph := h.alloc u
  (ph.2, { s with user_data := ph.1 })

/-- The structured operation error (`OperationError` in src/cqe.rs):
the originating operation kind together with the OS error number the
`io::Error` was built from (`io::Error::from_raw_os_error(err_code)`). -/
structure OperationError : Type where
  op : Operation
  errno : Int
deriving DecidableEq, Repr

/-- `OperationError::op_err` (src/cqe.rs lines 15-22). -/
def OperationError.op_err (op : Operation) (err_code : Int) : OperationError :=
  ⟨op, err_code⟩

/-- `Cqe::get_data` (src/cqe.rs lines 41-57).  Reads the raw result code
and the opaque tag.  Null tag: `Ok(None)`.  Otherwise the tag is
dereferenced, so the heap must still map it (a dangling tag is undefined
behaviour, modelled as `none`).  Negative result: only the operation kind
is read from the context and `Err(OperationError)` is returned, the heap
unchanged.  Non-negative result: the box is rebuilt (`Box::from_raw`), the
context is handed back to the caller and its storage leaves the heap. -/
def Cqe.get_data {T : Type} (h : Heap T) (c : Cqe) :
    Option (Except OperationError (Option (UserData T)) × Heap T) :=
  let op_result := c.res
  let ptr := c.user_data
  if ptr = 0 then
    some (Except.ok none, h)
  else
    match h.mem ptr with
    | none => none
    | some u =>
      if op_result < 0 then
        some (Except.error (OperationError.op_err u.op (-op_result)), h)
      else
        some (Except.ok (some u), h.free ptr)

/-- `Cqe::get_result` (src/cqe.rs lines 58-60): a plain read of the raw
result code (`(*self._inner).res`).  We thread the heap through to record
that the call does not touch the context state. -/
def Cqe.get_result {T : Type} (h : Heap T) (c : Cqe) : Int × Heap T :=
  (c.res, h)

/-- The ring handle (`Rring` in src/lib.rs): it holds the raw pointer to
the ring control memory it allocated (`_inner`; the layout is determined by
the `io_uring` type and plays no further role). -/
structure Rring : Type where
  inner : Nat
deriving DecidableEq, Repr

/-- Observable kernel-boundary events of the ring-handle lifecycle. -/
inductive KernelEvent : Type
  | queueInit (ptr : Nat)
  | queueExit (ptr : Nat)
  | deallocMem (ptr : Nat)
  | submitCall (ptr : Nat)
  | waitCall (ptr : Nat)
  | seenCall (ptr : Nat)
deriving DecidableEq, Repr

/-- `Rring::exit` (src/lib.rs lines 122-127): calls `io_uring_queue_exit`
on the ring pointer. -/
def Rring.exitTrace (r : Rring) : List KernelEvent :=
  [KernelEvent.queueExit r.inner]

/-- `impl Drop for Rring` (src/lib.rs lines 130-137): first `self.exit()`
(kernel-side teardown), then `dealloc` of the backing memory. -/
def Rring.dropTrace (r : Rring) : List KernelEvent :=
  r.exitTrace ++ [KernelEvent.deallocMem r.inner]

/-- `Rring::submit` (src/lib.rs lines 93-95): a single kernel call, no
memory release. -/
def Rring.submitTrace (r : Rring) : List KernelEvent :=
  [KernelEvent.submitCall r.inner]

/-- `Rring::wait`'s kernel call (src/lib.rs line 109). -/
def Rring.waitTrace (r : Rring) : List KernelEvent :=
  [KernelEvent.waitCall r.inner]

/-- `Rring::seen` (src/lib.rs lines 117-121): a single kernel-library call,
no memory release. -/
def Rring.seenTrace (r : Rring) : List KernelEvent :=
  [KernelEvent.seenCall r.inner]

/-- `Rring::new` (src/lib.rs lines 60-75).  The kernel init call
`io_uring_queue_init` is external; its return value is the parameter
`ret`.  Negative `ret`: the constructor fails with the OS error number
`-ret` (`io::Error::from_raw_os_error(-ret)`, modelled by its error
number).  Otherwise the handle owning the freshly allocated memory at
`ptr` is returned. -/
def Rring.new (ptr : Nat) (ret : Int) : Except Int Rring :=
  if ret < 0 then Except.error (-ret) else Except.ok ⟨ptr⟩

/-- Setup-flag bit values (`SetupFlag` bitflags in src/lib.rs). -/
def SetupFlag.IO_POLL : Nat := 1

/-- `SQ_POLL` setup flag bit. -/
def SetupFlag.SQ_POLL : Nat := 2

/-- `SQ_AFF` setup flag bit. -/
def SetupFlag.SQ_AFF : Nat := 4

/-- `CQ_SIZE` setup flag bit. -/
def SetupFlag.CQ_SIZE : Nat := 8

/-- `CLAMP` setup flag bit. -/
def SetupFlag.CLAMP : Nat := 16

/-- `ATTACH_WQ` setup flag bit. -/
def SetupFlag.ATTACH_WQ : Nat := 32

/-- `RING_DISABLED` setup flag bit. -/
def SetupFlag.RING_DISABLED : Nat := 64

/-- The explicit parameter block (`RringParams` in src/lib.rs): setup
flags, feature flags, and the kernel submitter-thread CPU pin and idle
timeout (all `u32` values, carried as naturals). -/
structure RringParams : Type where
  flags : Nat
  features : Nat
  sq_thread_cpu : Nat
  sq_thread_idle : Nat
deriving DecidableEq, Repr

/-- `RringParams::new` (src/lib.rs lines 147-154): both thread parameters
start at `0`. -/
def RringParams.new (flags : Nat) (features : Nat) : RringParams :=
  ⟨flags, features, 0, 0⟩

/-- `RringParams::set_sq_thread_cpu` (src/lib.rs lines 155-159): updates
the field only when the `SQ_POLL` bit is set in the construction flags. -/
def RringParams.set_sq_thread_cpu (p : RringParams) (val : Nat) : RringParams :=
  if p.flags &&& SetupFlag.SQ_POLL ≠ 0 then { p with sq_thread_cpu := val } else p

/-- `RringParams::set_sq_thread_idle` (src/lib.rs lines 160-164): updates
the field only when the `SQ_POLL` bit is set in the construction flags. -/
def RringParams.set_sq_thread_idle (p : RringParams) (val : Nat) : RringParams :=
  if p.flags &&& SetupFlag.SQ_POLL ≠ 0 then { p with sq_thread_idle := val } else p

/-- `Rring::with_param` (src/lib.rs lines 76-92).  The parameter block is
marshalled (`to_raw`) and handed to the external `io_uring_queue_init_params`
call, whose return value is the parameter `ret`; the failure logic is
identical to `Rring::new`. -/
def Rring.with_param (ptr : Nat) (param : RringParams) (ret : Int) :
    Except Int Rring :=
  if ret < 0 then Except.error (-ret) else Except.ok ⟨ptr⟩

/-- `Rring::wait` (src/lib.rs lines 106-116).  The external
`io_uring_wait_cqe` call fills a cqe pointer and returns `retval`; if
`retval` is non-zero the call fails with the OS error number `-retval`,
otherwise the completion event the kernel produced (parameter `c`) is
returned. -/
def Rring.wait (r : Rring) (retval : Int) (c : Cqe) : Except Int Cqe :=
  if retval ≠ 0 then Except.error (-retval) else Except.ok c

/-- Local state of the submission queue visible to the liburing library:
the number of free submission-queue entries. -/
structure SqState : Type where
  free_entries : Nat
deriving DecidableEq, Repr

/-- Modelled from the spec: `io_uring_get_sqe` (an external liburing
function, not part of this repository) is a local, non-blocking check of
the submission queue — not a kernel call.  It returns a null pointer when
no free entry exists and a pointer to a free slot otherwise ("acquire_slot:
returns a free submission slot or fails with a queue full condition when no
slot is available; this is a local, non-blocking check, not a kernel
call"). -/
def io_uring_get_sqe (s : SqState) : Option Sqe × SqState :=
  if s.free_entries = 0 then (none, s) else (some ⟨0⟩, ⟨s.free_entries - 1⟩)

/-- The distinguishable queue-full error.  `sqFull` stands for the
`anyhow!` error with message "SQ is currently full." that
`Rring::get_sqe` produces. -/
inductive GetSqeError : Type
  | sqFull
deriving DecidableEq, Repr

/-- `Rring::get_sqe` (src/lib.rs lines 96-105): call `io_uring_get_sqe`;
a null pointer becomes the queue-full error, otherwise the slot is
returned. -/
def Rring.get_sqe (r : Rring) (s : SqState) : Except GetSqeError Sqe × SqState :=
  match io_uring_get_sqe s with
  | (none, s2) => (Except.error GetSqeError.sqFull, s2)
  | (some sqe, s2) => (Except.ok sqe, s2)

/-- A sample payload-carrying request context used by concrete witnesses. -/
def uR : UserData Nat :=
  ⟨Operation.Read, ⟨1⟩, 3, some 42⟩

/-- A sample one-context heap: `uR` stored at address `1`. -/
def heap1 : Heap Nat :=
  ⟨fun q => if q = 1 then some uR else none, 1⟩

/-- A sample parameter block whose flags lack `SQ_POLL`. -/
def paramsNoPoll : RringParams :=
  RringParams.new SetupFlag.IO_POLL 0

/-- Claim C4: a completion whose opaque tag is null yields `Ok(None)` — no
context, not an error — whatever the raw result code is. -/
theorem get_data_null_tag {T : Type} (h : Heap T) (c : Cqe)
    (hp : c.user_data = 0) :
    Cqe.get_data h c = some (Except.ok none, h) := by
  simp [Cqe.get_data, hp]

/-- Witness for C4 at a concrete input: null tag, negative result code. -/
theorem get_data_null_tag_witness :
    Cqe.get_data heap1 ⟨-7, 0⟩ = some (Except.ok none, heap1) :=
  get_data_null_tag heap1 ⟨-7, 0⟩ rfl

/-- Claim C1: round-trip recovery.  Attaching a context `u` to a slot via
`Sqe::set_user_data` and recovering it from the matching completion (the
cqe carrying the slot's tag) via `Cqe::get_data` with a non-negative result
code yields `Ok(Some u)` — operation, identifier, source descriptor and
payload all equal to what was attached — and the reclaimed storage leaves
the heap. -/
theorem set_get_round_trip {T : Type} (h : Heap T) (s : Sqe) (u : UserData T)
    (res : Int) (hres : 0 ≤ res) :
    Cqe.get_data (Sqe.set_user_data h s u).1
        ⟨res, (Sqe.set_user_data h s u).2.user_data⟩ =
      some (Except.ok (some u),
        ((Sqe.set_user_data h s u).1).free (Sqe.set_user_data h s u).2.user_data) := by
  simp [Sqe.set_user_data, Heap.alloc, Cqe.get_data, not_lt.mpr hres]

/-- Witness for C1: a concrete payload-carrying context round-trips through
attach and recover with result code 5. -/
theorem set_get_round_trip_witness :
    Cqe.get_data (Sqe.set_user_data (Heap.empty Nat) ⟨0⟩ uR).1
        ⟨5, (Sqe.set_user_data (Heap.empty Nat) ⟨0⟩ uR).2.user_data⟩ =
      some (Except.ok (some uR),
        ((Sqe.set_user_data (Heap.empty Nat) ⟨0⟩ uR).1).free
          (Sqe.set_user_data (Heap.empty Nat) ⟨0⟩ uR).2.user_data) :=
  set_get_round_trip (Heap.empty Nat) ⟨0⟩ uR 5 (by decide)

/-- Claim C2: sign convention.  For a completion whose tag is non-null and
maps to a live context `u`, a negative result code yields the structured
error carrying `u`'s operation kind and the OS error number `-res`, and a
non-negative result code (zero included) yields success; nothing but the
sign of the code decides between the two. -/
theorem get_data_sign_convention {T : Type} (h : Heap T) (c : Cqe)
    (u : UserData T) (hp : c.user_data ≠ 0) (hm : h.mem c.user_data = some u) :
    (c.res < 0 →
      Cqe.get_data h c =
        some (Except.error (OperationError.op_err u.op (-c.res)), h)) ∧
    (0 ≤ c.res →
      Cqe.get_data h c = some (Except.ok (some u), h.free c.user_data)) := by
  constructor
  · intro hneg
    simp [Cqe.get_data, hp, hm, hneg]
  · intro hpos
    simp [Cqe.get_data, hp, hm, not_lt.mpr hpos]

/-- Witness for C2: result code `-9` on a live tag yields the `Read`-tagged
error with OS error number `9`. -/
theorem get_data_sign_convention_witness :
    Cqe.get_data heap1 ⟨-9, 1⟩ =
      some (Except.error (OperationError.op_err Operation.Read 9), heap1) :=
  (get_data_sign_convention heap1 ⟨-9, 1⟩ uR (by decide) rfl).1 (by decide)

/-- Claim C3: exactly-once recovery.  On a completion with a live tag and
non-negative result, the first `Cqe::get_data` succeeds and hands the
context back; afterwards the tag's storage is gone from the heap, so a
second `Cqe::get_data` against the same completion event dereferences freed
storage and is undefined (modelled as `none`) — recovery succeeds exactly
once. -/
theorem get_data_exactly_once {T : Type} (h : Heap T) (c : Cqe)
    (u : UserData T) (hp : c.user_data ≠ 0) (hm : h.mem c.user_data = some u)
    (hres : 0 ≤ c.res) :
    Cqe.get_data h c = some (Except.ok (some u), h.free c.user_data) ∧
    (h.free c.user_data).mem c.user_data = none ∧
    Cqe.get_data (h.free c.user_data) c = none := by
  refine ⟨?_, ?_, ?_⟩
  · simp [Cqe.get_data, hp, hm, not_lt.mpr hres]
  · simp [Heap.free]
  · simp [Cqe.get_data, hp, Heap.free]

/-- Witness for C3: after the first successful recovery at tag `1`, the
second call on the same completion is undefined. -/
theorem get_data_exactly_once_witness :
    Cqe.get_data heap1 ⟨5, 1⟩ = some (Except.ok (some uR), heap1.free 1) ∧
    (heap1.free 1).mem 1 = none ∧
    Cqe.get_data (heap1.free 1) ⟨5, 1⟩ = none :=
  get_data_exactly_once heap1 ⟨5, 1⟩ uR (by decide) rfl (by decide)

/-- Claim C9: error-path context retention.  On a completion with a live
non-null tag and a negative result code, `Cqe::get_data` builds the error
from the context's operation kind alone and returns the heap unchanged:
the context, payload included, is still reachable through the tag — its
storage is not released and nothing is handed back to the caller. -/
theorem get_data_error_retains_context {T : Type} (h : Heap T) (c : Cqe)
    (u : UserData T) (hp : c.user_data ≠ 0) (hm : h.mem c.user_data = some u)
    (hres : c.res < 0) :
    Cqe.get_data h c =
      some (Except.error (OperationError.op_err u.op (-c.res)), h) ∧
    ((Cqe.get_data h c).map Prod.snd = some h ∧
      h.mem c.user_data = some u) := by
  have he : Cqe.get_data h c =
      some (Except.error (OperationError.op_err u.op (-c.res)), h) := by
    simp [Cqe.get_data, hp, hm, hres]
  exact ⟨he, by simp [he], hm⟩

/-- Witness for C9: failed recovery with result `-13` leaves `heap1`
unchanged, with the context still stored at tag `1`. -/
theorem get_data_error_retains_context_witness :
    Cqe.get_data heap1 ⟨-13, 1⟩ =
      some (Except.error (OperationError.op_err Operation.Read 13), heap1) ∧
    ((Cqe.get_data heap1 ⟨-13, 1⟩).map Prod.snd = some heap1 ∧
      heap1.mem 1 = some uR) :=
  get_data_error_retains_context heap1 ⟨-13, 1⟩ uR (by decide) rfl (by decide)

/-- Counterexample for claim C5: the public interface does let a caller
read a completion's raw result code while leaving the attached context
untouched.  `Cqe::get_result` is public (src/cqe.rs lines 58-60): at a
concrete completion with a live attached context it returns the raw result
code with the heap unchanged, the context still stored under the tag. -/
theorem get_result_separable_counterexample :
    Cqe.get_result heap1 ⟨7, 1⟩ = (7, heap1) ∧ heap1.mem 1 = some uR :=
  ⟨rfl, rfl⟩

/-- Claim C5 as amended: result reading and context recovery are separable
in the public contract — `Cqe::get_result` is a public operation that
returns the raw result code and leaves the context state completely
unchanged, deciding nothing about the context's fate. -/
theorem get_result_leaves_context {T : Type} (h : Heap T) (c : Cqe) :
    Cqe.get_result h c = (c.res, h) :=
  rfl

/-- Claim C6: queue-full signaling.  With no free submission-queue entry,
`Rring::get_sqe` fails with the distinguishable queue-full error and leaves
the local queue state unchanged (no blocking, no corruption; the check is a
pure local function, no kernel call); with a free entry it returns a
slot. -/
theorem get_sqe_queue_full (r : Rring) (s : SqState) :
    (s.free_entries = 0 →
      Rring.get_sqe r s = (Except.error GetSqeError.sqFull, s)) ∧
    (s.free_entries ≠ 0 → (Rring.get_sqe r s).1 = Except.ok ⟨0⟩) := by
  constructor <;> intro hs <;> simp [Rring.get_sqe, io_uring_get_sqe, hs]

/-- Witness for C6: acquiring a slot from a full queue (no free entries)
fails with the queue-full error and the state is untouched. -/
theorem get_sqe_queue_full_witness :
    Rring.get_sqe ⟨1⟩ ⟨0⟩ = (Except.error GetSqeError.sqFull, ⟨0⟩) :=
  (get_sqe_queue_full ⟨1⟩ ⟨0⟩).1 rfl

/-- Claim C7: teardown-before-free ordering.  In the trace of `Drop for
Rring` — the sole exit path releasing the ring's backing memory — every
memory release of a pointer is strictly preceded by the kernel-side
teardown (`io_uring_queue_exit`) of that same pointer; and no other method
of the handle (`exit`, `submit`, `wait`, `seen`) ever releases the backing
memory, so the handle owns it for its entire lifetime. -/
theorem drop_teardown_before_free (r : Rring) (k p : Nat)
    (hk : (Rring.dropTrace r)[k]? = some (KernelEvent.deallocMem p)) :
    (∃ m, m < k ∧ (Rring.dropTrace r)[m]? = some (KernelEvent.queueExit p)) ∧
    (KernelEvent.deallocMem p ∉ Rring.exitTrace r ∧
     KernelEvent.deallocMem p ∉ Rring.submitTrace r ∧
     KernelEvent.deallocMem p ∉ Rring.waitTrace r ∧
     KernelEvent.deallocMem p ∉ Rring.seenTrace r) := by
  refine ⟨?_, by simp [Rring.exitTrace], by simp [Rring.submitTrace],
    by simp [Rring.waitTrace], by simp [Rring.seenTrace]⟩
  match k with
  | 0 => simp [Rring.dropTrace, Rring.exitTrace] at hk
  | 1 =>
    refine ⟨0, Nat.zero_lt_one, ?_⟩
    simp [Rring.dropTrace, Rring.exitTrace] at hk ⊢
    exact hk
  | (n + 2) => simp [Rring.dropTrace, Rring.exitTrace] at hk

/-- Witness for C7: for the handle at pointer `5`, the memory release at
trace position `1` is preceded by the kernel teardown, and no other method
trace releases the memory. -/
theorem drop_teardown_before_free_witness :
    (∃ m, m < 1 ∧ (Rring.dropTrace ⟨5⟩)[m]? = some (KernelEvent.queueExit 5)) ∧
    (KernelEvent.deallocMem 5 ∉ Rring.exitTrace ⟨5⟩ ∧
     KernelEvent.deallocMem 5 ∉ Rring.submitTrace ⟨5⟩ ∧
     KernelEvent.deallocMem 5 ∉ Rring.waitTrace ⟨5⟩ ∧
     KernelEvent.deallocMem 5 ∉ Rring.seenTrace ⟨5⟩) :=
  drop_teardown_before_free ⟨5⟩ 1 5 rfl

/-- Claim C8: setup and wait error propagation.  Ring creation
(`Rring::new`, `Rring::with_param`) fails exactly when the kernel init
call returns a negative value, with OS error number the negation of that
value, and succeeds otherwise; `Rring::wait` fails exactly when the kernel
wait call returns non-zero, with OS error number the negation of the
return value, and otherwise yields the completion event.  Both propagate
immediately; there is no local recovery branch. -/
theorem setup_wait_error_propagation (ptr : Nat) (param : RringParams)
    (r w : Int) (rr : Rring) (c : Cqe) :
    (r < 0 → Rring.new ptr r = Except.error (-r) ∧
      Rring.with_param ptr param r = Except.error (-r)) ∧
    (0 ≤ r → Rring.new ptr r = Except.ok ⟨ptr⟩ ∧
      Rring.with_param ptr param r = Except.ok ⟨ptr⟩) ∧
    (w ≠ 0 → Rring.wait rr w c = Except.error (-w)) ∧
    (w = 0 → Rring.wait rr w c = Except.ok c) := by
  refine ⟨fun hr => ?_, fun hr => ?_, fun hw => ?_, fun hw => ?_⟩
  · simp [Rring.new, Rring.with_param, hr]
  · simp [Rring.new, Rring.with_param, not_lt.mpr hr]
  · simp [Rring.wait, hw]
  · simp [Rring.wait, hw]

/-- Witness for C8: a kernel init return of `-12` makes both constructors
fail with OS error number `12`. -/
theorem setup_wait_error_propagation_witness :
    Rring.new 1 (-12) = Except.error 12 ∧
    Rring.with_param 1 paramsNoPoll (-12) = Except.error 12 :=
  (setup_wait_error_propagation 1 paramsNoPoll (-12) (-4) ⟨1⟩ ⟨0, 0⟩).1
    (by decide)

/-- Claim C10: conditional parameter setters.  `set_sq_thread_cpu` and
`set_sq_thread_idle` update their fields only when the `SQ_POLL` setup
flag was included at construction; on a parameter block whose flags lack
`SQ_POLL`, both calls leave the block completely unchanged. -/
theorem set_sq_thread_conditional (p : RringParams) (v w : Nat) :
    (p.flags &&& SetupFlag.SQ_POLL = 0 →
      p.set_sq_thread_cpu v = p ∧ p.set_sq_thread_idle w = p) ∧
    (p.flags &&& SetupFlag.SQ_POLL ≠ 0 →
      p.set_sq_thread_cpu v = { p with sq_thread_cpu := v } ∧
      p.set_sq_thread_idle w = { p with sq_thread_idle := w }) := by
  constructor <;> intro hf <;>
    simp [RringParams.set_sq_thread_cpu, RringParams.set_sq_thread_idle, hf]

/-- Witness for C10: on a block constructed with only the `IO_POLL` flag
(`SQ_POLL` absent), both setters are the identity. -/
theorem set_sq_thread_conditional_witness :
    paramsNoPoll.set_sq_thread_cpu 7 = paramsNoPoll ∧
    paramsNoPoll.set_sq_thread_idle 9 = paramsNoPoll :=
  (set_sq_thread_conditional paramsNoPoll 7 9).1 (by decide)
